import Mathlib

/-!
Verification of the ModelForge prompt-to-mesh pipeline and of its
multi-format export fallback chain.

The development shallowly embeds the Python sources of the repository:

* `instance/ai_modules/advanced_generator.py`
  (`_analyze_prompt`, `_estimate_complexity`, `_generate_base_shape`,
  `_add_details`, `_add_surface_details`, `_add_structural_details`,
  `_add_fine_details`, `_apply_transformations`, `_procedural_generation`),
* `file_converter.py` (`convert_to_fbx`, `convert_to_blend`,
  `convert_with_blender`),
* `model_generator.py` (`generate_3d_model`),
* `tasks.py` (`generate_3d_model_task`).

Python strings are embedded as `String`/`List Char`; Python integers as
`Int`.  External effects (the Blender subprocess, the trimesh library,
the export engine, the database session, the filesystem) are embedded as
explicit environments of boolean outcomes, one flag per `try`-guarded
external call, and the functions return the values the Python code
returns, together with the write/progress traces the Python code
produces.  Meshes are embedded as the list of primitives concatenated
into them (`trimesh.util.concatenate` only merges buffers); vertex
coordinates, which no claim depends on, are not carried.
-/

namespace ModelForge

/-! ## Python string primitives -/

/-- `startsWithL needle hay`: `hay` begins with `needle` (character lists). -/
def startsWithL : List Char → List Char → Bool
  | [], _ => true
  | _ :: _, [] => false
  | a :: as, b :: bs => a == b && startsWithL as bs

/-- Python substring containment `needle in hay` on character lists. -/
def containsSub (needle : List Char) : List Char → Bool
  | [] => needle.isEmpty
  | b :: bs => startsWithL needle (b :: bs) || containsSub needle bs

/-- Python `keyword in prompt_lower` for a keyword literal and a
lowered character list. -/
def kwIn (kw : String) (pl : List Char) : Bool :=
  containsSub kw.toList pl

/-- Python `str.lower()` restricted to its ASCII action, as a character
list (every keyword and prompt in the repository is ASCII). -/
def pyLower (s : String) : List Char :=
  s.toList.map Char.toLower

/-- The whitespace set of Python `str.strip()`. -/
def isPySpace (c : Char) : Bool :=
  c == ' ' || c == '\t' || c == '\n' || c == '\r' || c == '\x0b' || c == '\x0c'

/-- Python `s.strip()`. -/
def pyStrip (s : String) : String :=
  (((s.toList.dropWhile isPySpace).reverse.dropWhile isPySpace).reverse).asString

/-- Python `s[:n]`. -/
def pyTake (n : Nat) (s : String) : String :=
  (s.toList.take n).asString

/-! ## `_analyze_prompt` / `_estimate_complexity`
(`instance/ai_modules/advanced_generator.py`, lines 211-296) -/

/-- The `shape_types` dictionary of `_analyze_prompt`, in its insertion
(= iteration) order. -/
def shape_types : List (String × List String) :=
  [("vehicle", ["car", "truck", "motorcycle", "bike", "vehicle", "automobile",
                "spaceship", "rocket", "ship", "boat", "airplane", "plane", "helicopter"]),
   ("building", ["house", "building", "castle", "tower", "skyscraper", "cottage",
                 "mansion", "apartment", "office"]),
   ("furniture", ["chair", "table", "desk", "bed", "sofa", "couch", "cabinet",
                  "shelf", "lamp"]),
   ("character", ["person", "human", "robot", "animal", "creature", "monster", "dragon"]),
   ("weapon", ["sword", "gun", "rifle", "pistol", "knife", "axe", "bow", "arrow"]),
   ("nature", ["tree", "flower", "plant", "rock", "mountain", "crystal", "gem"]),
   ("abstract", ["abstract", "geometric", "sculpture", "art", "design"])]

/-- The `styles` dictionary of `_analyze_prompt`, in iteration order. -/
def styles : List (String × List String) :=
  [("realistic", ["realistic", "photorealistic", "detailed", "accurate"]),
   ("stylized", ["stylized", "cartoon", "anime", "comic", "artistic"]),
   ("low_poly", ["low poly", "low-poly", "minimal", "simple", "geometric"]),
   ("sci_fi", ["sci-fi", "futuristic", "cyberpunk", "space", "alien"]),
   ("fantasy", ["fantasy", "magical", "medieval", "ancient", "mythical"])]

/-- The `size_keywords` dictionary of `_analyze_prompt`, in iteration order. -/
def size_keywords : List (String × List String) :=
  [("tiny", ["tiny", "small", "miniature", "mini"]),
   ("normal", ["normal", "standard", "regular"]),
   ("large", ["large", "big", "huge", "massive", "giant"])]

/-- `any(keyword in prompt_lower for keyword in keywords)`. -/
def categoryMatches (kws : List String) (pl : List Char) : Bool :=
  kws.any fun kw => kwIn kw pl

/-- The detection loop of `_analyze_prompt`: walk the dictionary in
iteration order, return the first category one of whose keywords occurs
in the lowered prompt, `break`ing on a hit; keep the default otherwise. -/
def detectFirst (tbl : List (String × List String)) (dflt : String) (pl : List Char) : String :=
  match tbl with
  | [] => dflt
  | (cat, kws) :: rest =>
    if categoryMatches kws pl then cat else detectFirst rest dflt pl

/-- `detail_words` of `_estimate_complexity`. -/
def detail_words : List String :=
  ["detailed", "complex", "intricate", "elaborate", "ornate", "decorated", "patterned"]

/-- `simple_words` of `_estimate_complexity`. -/
def simple_words : List String :=
  ["simple", "basic", "minimal", "clean", "plain"]

/-- `sum(1 for word in words if word in prompt_lower)`. -/
def countPresent (words : List String) (pl : List Char) : Int :=
  ((words.filter fun w => kwIn w pl).length : Int)

/-- `_estimate_complexity` (advanced_generator.py, lines 277-296):
`5 + detail_count - simple_count` clamped into `[1, 10]` via
`max(1, min(10, complexity))`. -/
def _estimate_complexity (prompt : String) : Int :=
  let prompt_lower := pyLower prompt
  let detail_count := countPresent detail_words prompt_lower
  let simple_count := countPresent simple_words prompt_lower
  let complexity := 5 + detail_count - simple_count
  max 1 (min 10 complexity)

/-- The record `_analyze_prompt` returns (the `no_interior` /
`simple_geometry` / `max_faces` / `optimize_for_game` constants that the
Python dict also carries are fixed and read by nobody modelled here). -/
structure ShapeInfo where
  shape_type : String
  style : String
  size : String
  complexity : Int
  symmetry : String
  organic : String
deriving DecidableEq

/-- `_analyze_prompt` (advanced_generator.py, lines 211-275). -/
def _analyze_prompt (prompt : String) : ShapeInfo :=
  let prompt_lower := pyLower prompt
  { shape_type := detectFirst shape_types "abstract" prompt_lower
    style := detectFirst styles "realistic" prompt_lower
    size := detectFirst size_keywords "normal" prompt_lower
    complexity := _estimate_complexity prompt
    symmetry := if ["symmetric", "balanced", "even"].any (fun w => kwIn w prompt_lower)
      then "symmetric" else "asymmetric"
    organic := if ["organic", "natural", "curved", "flowing"].any (fun w => kwIn w prompt_lower)
      then "organic" else "geometric" }

/-! ## The procedural mesh pipeline
(`instance/ai_modules/advanced_generator.py`) -/

/-- `GenerationEngine` (advanced_generator.py, lines 30-35). -/
inductive GenerationEngine
  | procedural
  | ai_enhanced
  | hybrid
  | texture_generated
deriving DecidableEq

/-- `GenerationEngine(engine)` on a validated engine string. -/
def engineOfString (s : String) : Option GenerationEngine :=
  if s = "procedural" then some .procedural
  else if s = "ai_enhanced" then some .ai_enhanced
  else if s = "hybrid" then some .hybrid
  else if s = "texture_generated" then some .texture_generated
  else none

/-- The `GenerationConfig` dataclass (advanced_generator.py, lines 37-47).
`seed` values are abstracted (the wall clock feeds them; randomness is
not carried by the mesh embedding). -/
structure GenerationConfig where
  engine : GenerationEngine
  complexity : Int := 5
  detail_level : Int := 7
  material_style : String := "realistic"
  generate_textures : Bool := true
  generate_materials : Bool := true
  variations : Int := 1
  seed : Option Int := none
deriving DecidableEq

/-- The detail primitives `_add_details` can concatenate onto a mesh:
`bump` is the small `uv_sphere` of `_add_surface_details`, `panel` the
thin box of `_add_structural_details`, `pin` the small cylinder of
`_add_fine_details`. -/
inductive DetailPrim
  | bump
  | panel
  | pin
deriving DecidableEq

/-- A mesh, embedded as the multiset of primitives concatenated into it:
`basePrims` counts the primitives of the base shape,`details` lists the
detail primitives appended afterwards.  `trimesh.util.concatenate` only
merges vertex/face buffers, so this structure is exactly what the
pipeline manipulates; coordinates (translations, scaling, vertex noise),
which no claim depends on, are not carried. -/
structure Mesh where
  basePrims : Nat
  details : List DetailPrim
deriving DecidableEq

/-- Primitive count of the base shape produced by `_generate_base_shape`
for a given `shape_type` and `style` (advanced_generator.py, lines
316-647): e.g. a standard vehicle is body + cabin + 4 wheels, a fantasy
castle is base + tower + roof + 4 small towers, a modern building is
base + building + 9 windows, a non-low-poly abstract shape is torus +
sphere + 8 spirals. -/
def baseShapePrims (shape_type style : String) : Nat :=
  if shape_type = "vehicle" then (if style = "sci_fi" then 6 else 6)
  else if shape_type = "building" then (if style = "fantasy" then 7 else 11)
  else if shape_type = "furniture" then 6
  else if shape_type = "character" then 6
  else if shape_type = "weapon" then (if style = "sci_fi" then 4 else 3)
  else if shape_type = "nature" then (if style = "organic" then 9 else 6)
  else (if style = "low_poly" then 1 else 10)

/-- `_generate_base_shape` (advanced_generator.py, lines 298-329).  The
Python method mutates the shared `config` dataclass in place
(`config.complexity = min(config.complexity, 5)`, and likewise
`detail_level`, under the comment "Reduce complexity for Roblox") before
dispatching on the shape type; the embedding returns the mutated config
next to the mesh so the caller can thread it on. -/
def _generate_base_shape (shape_info : ShapeInfo) (config : GenerationConfig) :
    Mesh × GenerationConfig :=
  let config := { config with
    complexity := min config.complexity 5
    detail_level := min config.detail_level 5 }
  ({ basePrims := baseShapePrims shape_info.shape_type shape_info.style, details := [] },
   config)

/-- `_add_surface_details` (advanced_generator.py, lines 668-689):
concatenates 20 small spheres at random surface sample points (the
sample positions are not carried). -/
def _add_surface_details (mesh : Mesh) (_config : GenerationConfig) : Mesh :=
  { mesh with details := mesh.details ++ List.replicate 20 DetailPrim.bump }

/-- `_add_structural_details` (advanced_generator.py, lines 691-706):
concatenates 5 panel boxes when the shape type is `vehicle`, `building`
or `robot`, and returns the mesh unchanged otherwise. -/
def _add_structural_details (mesh : Mesh) (shape_info : ShapeInfo)
    (_config : GenerationConfig) : Mesh :=
  if shape_info.shape_type = "vehicle" ∨ shape_info.shape_type = "building" ∨
      shape_info.shape_type = "robot" then
    { mesh with details := mesh.details ++ List.replicate 5 DetailPrim.panel }
  else mesh

/-- `_add_fine_details` (advanced_generator.py, lines 708-728):
concatenates 10 small cylinders at uniformly random positions (the
positions are not carried). -/
def _add_fine_details (mesh : Mesh) (_config : GenerationConfig) : Mesh :=
  { mesh with details := mesh.details ++ List.replicate 10 DetailPrim.pin }

/-- `_add_details` (advanced_generator.py, lines 649-666). -/
def _add_details (base_mesh : Mesh) (shape_info : ShapeInfo)
    (config : GenerationConfig) : Mesh :=
  if config.complexity ≤ 3 then base_mesh
  else
    let detailed_mesh := base_mesh
    let detailed_mesh :=
      if 7 ≤ config.complexity then _add_surface_details detailed_mesh config
      else detailed_mesh
    let detailed_mesh :=
      if 8 ≤ config.complexity then _add_structural_details detailed_mesh shape_info config
      else detailed_mesh
    let detailed_mesh :=
      if 9 ≤ config.complexity then _add_fine_details detailed_mesh config
      else detailed_mesh
    detailed_mesh

/-- `_apply_transformations` (advanced_generator.py, lines 730-751).
Every branch acts on coordinates only: stylized scaling, the low-poly
`_simplify_mesh` stub (which returns its argument in the source), the
Gaussian vertex jitter of `_make_organic`, and the random non-uniform
scaling of `_make_asymmetric`.  None adds or removes a primitive, so on
the primitive-multiset embedding it is the identity. -/
def _apply_transformations (mesh : Mesh) (_shape_info : ShapeInfo)
    (_config : GenerationConfig) : Mesh :=
  mesh

/-- The single concatenated mesh returned when the geometry-generator
module succeeds inside `_procedural_generation` (one `trimesh.Trimesh`
built from a vertex/face array, no appended details). -/
def geometryGeneratorMesh (_prompt : String) : Mesh :=
  { basePrims := 1, details := [] }

/-- `_procedural_generation` (advanced_generator.py, lines 120-151).
`geometry_generator_ok` is the outcome of the guarded call into the
geometry-generator module: on success its mesh is returned directly;
on failure the traditional path runs `_analyze_prompt` on the original
prompt, `_generate_base_shape` (which mutates the shared config),
`_add_details` and `_apply_transformations` with the mutated config. -/
def _procedural_generation (geometry_generator_ok : Bool) (prompt : String)
    (config : GenerationConfig) : Mesh :=
  if geometry_generator_ok then geometryGeneratorMesh prompt
  else
    let shape_info := _analyze_prompt prompt
    let (base_mesh, config) := _generate_base_shape shape_info config
    let detailed_mesh := _add_details base_mesh shape_info config
    _apply_transformations detailed_mesh shape_info config

/-! ## The export fallback chain (`file_converter.py`) -/

/-- Outcomes of the external calls the conversion cascade guards, one
flag per `try`-guarded call site:

* `blender_found` — `find_blender_executable()` returned a path
  (PATH search or the hard-coded install locations);
* `blender_run_ok` — the Blender subprocess exited with code 0 within
  the 300-second timeout and the output file exists;
* `trimesh_load_ok` — `trimesh.load(obj_path)` returned a mesh
  (no exception, not `None`);
* `fbx_exporter_available` — `'fbx' in mesh.exporters_available()`;
* `trimesh_export_ok` — `mesh.export(output_path, file_type='fbx')`
  did not raise;
* `engine_available` — `EXPORT_AVAILABLE and export_engine is not None`;
* `engine_export_ok` — `export_engine.export_model(...)` returned
  `True`. -/
structure ConvEnv where
  blender_found : Bool
  blender_run_ok : Bool
  trimesh_load_ok : Bool
  fbx_exporter_available : Bool
  trimesh_export_ok : Bool
  engine_available : Bool
  engine_export_ok : Bool
deriving DecidableEq

/-- The tiers of the export fallback chain. `returnOriginal` is
`convert_to_fbx`'s final `return obj_path`; `returnNone` is
`convert_to_blend`'s final `return None`. -/
inductive Tier
  | blenderCLI
  | nativeExporter
  | exportEngine
  | returnOriginal
  | returnNone
deriving DecidableEq

/-- What one run of a conversion function did: the value returned
(`none` embeds Python `None`), the output files written, and the tiers
entered in order. -/
structure ConvRun where
  result : Option String
  writes : List String
  tiers : List Tier
deriving DecidableEq

/-- `convert_to_fbx` (file_converter.py, lines 18-87): Blender CLI,
then trimesh's native FBX exporter, then the export engine, then the
original OBJ path unchanged.  Tier 2 succeeds when the OBJ loads, the
FBX exporter is available and the export call does not raise; tier 3
when the export engine imported, the OBJ loads and `export_model`
returns `True`.  Every failure is swallowed by the `except` cascade. -/
def convert_to_fbx (env : ConvEnv) (obj_path job_id : String) : ConvRun :=
  let output_path := "generated/model_" ++ job_id ++ ".fbx"
  if env.blender_found && env.blender_run_ok then
    { result := some output_path, writes := [output_path], tiers := [.blenderCLI] }
  else if env.trimesh_load_ok && env.fbx_exporter_available && env.trimesh_export_ok then
    { result := some output_path, writes := [output_path],
      tiers := [.blenderCLI, .nativeExporter] }
  else if env.engine_available && env.trimesh_load_ok && env.engine_export_ok then
    { result := some output_path, writes := [output_path],
      tiers := [.blenderCLI, .nativeExporter, .exportEngine] }
  else
    { result := some obj_path, writes := [],
      tiers := [.blenderCLI, .nativeExporter, .exportEngine, .returnOriginal] }

/-- `convert_to_blend` (file_converter.py, lines 89-128): Blender CLI,
then the export engine (which it drives with `ExportFormat.RBXM` while
writing a `.blend` path), and on failure of both it returns `None` —
"Return None instead of raising - this makes it optional" per the
source comment.  There is no native-exporter tier for `.blend`. -/
def convert_to_blend (env : ConvEnv) (obj_path job_id : String) : ConvRun :=
  let output_path := "generated/model_" ++ job_id ++ ".blend"
  if env.blender_found && env.blender_run_ok then
    { result := some output_path, writes := [output_path], tiers := [.blenderCLI] }
  else if env.engine_available && env.trimesh_load_ok && env.engine_export_ok then
    { result := some output_path, writes := [output_path],
      tiers := [.blenderCLI, .exportEngine] }
  else
    { result := none, writes := [],
      tiers := [.blenderCLI, .exportEngine, .returnNone] }

/-- One strategy of the spec's ordered-strategy state machine: the tier
it implements, its success condition on the environment, and the value
returned / file written when it fires. -/
structure Strategy where
  tier : Tier
  fires : ConvEnv → Bool
  result : Option String
  writes : List String

/-- Modelled from the spec: an ordered list of strategies evaluated
first-match-wins, short-circuiting at the first one that fires, each
attempted at most once and recorded in the tier trace. -/
def runChain (chain : List Strategy) (env : ConvEnv) : ConvRun :=
  match chain with
  | [] => { result := none, writes := [], tiers := [] }
  | s :: rest =>
    if s.fires env then { result := s.result, writes := s.writes, tiers := [s.tier] }
    else
      let r := runChain rest env
      { result := r.result, writes := r.writes, tiers := s.tier :: r.tiers }

/-- The four-tier chain the spec describes for the FBX target. -/
def fbxChain (obj_path job_id : String) : List Strategy :=
  let output_path := "generated/model_" ++ job_id ++ ".fbx"
  [{ tier := .blenderCLI,
     fires := fun e => e.blender_found && e.blender_run_ok,
     result := some output_path, writes := [output_path] },
   { tier := .nativeExporter,
     fires := fun e => e.trimesh_load_ok && e.fbx_exporter_available && e.trimesh_export_ok,
     result := some output_path, writes := [output_path] },
   { tier := .exportEngine,
     fires := fun e => e.engine_available && e.trimesh_load_ok && e.engine_export_ok,
     result := some output_path, writes := [output_path] },
   { tier := .returnOriginal,
     fires := fun _ => true,
     result := some obj_path, writes := [] }]

/-- The three-tier chain `convert_to_blend` actually implements. -/
def blendChain (_obj_path job_id : String) : List Strategy :=
  let output_path := "generated/model_" ++ job_id ++ ".blend"
  [{ tier := .blenderCLI,
     fires := fun e => e.blender_found && e.blender_run_ok,
     result := some output_path, writes := [output_path] },
   { tier := .exportEngine,
     fires := fun e => e.engine_available && e.trimesh_load_ok && e.engine_export_ok,
     result := some output_path, writes := [output_path] },
   { tier := .returnNone,
     fires := fun _ => true,
     result := none, writes := [] }]

/-- A `ConvEnv` in which Blender is absent and every fallback tier
fails. -/
def allTiersFail : ConvEnv :=
  { blender_found := false, blender_run_ok := false, trimesh_load_ok := false,
    fbx_exporter_available := false, trimesh_export_ok := false,
    engine_available := false, engine_export_ok := false }

/-! ## `generate_3d_model` (`model_generator.py`, lines 41-265) -/

/-- The failures `generate_3d_model` lets escape to its caller.
`noGeometry` and `exportFailed` are raised inside the big `try` and
re-raised by the outer handler wrapped as
`Exception("3D model generation failed: ...")`. -/
inductive GenFailure
  | emptyPrompt
  | noGeometry
  | exportFailed
deriving DecidableEq

/-- The error string the caller sees for each failure (the export
message abbreviates the per-exception detail the Python string
interpolates). -/
def GenFailure.message : GenFailure → String
  | .emptyPrompt => "Prompt cannot be empty"
  | .noGeometry => "3D model generation failed: Failed to generate 3D geometry"
  | .exportFailed => "3D model generation failed: All export methods failed"

/-- Outcomes of the external calls `generate_3d_model` guards:

* `use_advanced` — the advanced AI module imports succeeded
  (module-level `USE_ADVANCED`);
* `ai_services_available` — `ai_service_manager.get_available_services()`
  is non-empty;
* `ai_success_and_mesh` — the AI service call returned success with a
  non-null mesh;
* `geometry_generator_ok` — the geometry-generator call inside
  `_procedural_generation` succeeded;
* `advanced_gen_ok` — `advanced_generator.generate_model` returned a
  result dict containing `'mesh'` without raising;
* `basic_gen_raises` — `generate_geometry_from_prompt` raised, sending
  the non-advanced path to `create_default_mesh()`;
* `multimodal_ok`, `material_ok`, `texture_ok` — the multimodal /
  material / texture steps succeeded (all three degrade silently);
* `makedirs_ok` — `os.makedirs("generated", exist_ok=True)` succeeded
  (on failure the bare filename is used instead);
* `engine_export_ok` — `export_engine.export_model(..., OBJ, ...)`
  returned `True`;
* `direct_export_ok` — `mesh.export(output_path)` did not raise;
* `stl_export_ok` — the last-resort STL export did not raise. -/
structure GenEnv where
  use_advanced : Bool
  ai_services_available : Bool
  ai_success_and_mesh : Bool
  geometry_generator_ok : Bool
  advanced_gen_ok : Bool
  basic_gen_raises : Bool
  multimodal_ok : Bool
  material_ok : Bool
  texture_ok : Bool
  makedirs_ok : Bool
  engine_export_ok : Bool
  direct_export_ok : Bool
  stl_export_ok : Bool
deriving DecidableEq

/-- `valid_styles` (model_generator.py, line 69). -/
def valid_styles : List String :=
  ["realistic", "stylized", "low_poly", "sci_fi", "fantasy", "cartoon"]

/-- `valid_engines` (model_generator.py, line 75). -/
def valid_engines : List String :=
  ["procedural", "ai_enhanced", "hybrid", "texture_generated"]

/-- The engine-string validation of `generate_3d_model`: an unknown
engine degrades to `"hybrid"` with a warning. -/
def validated_engine (engine : String) : String :=
  if valid_engines.contains engine then engine else "hybrid"

/-- `max(1, min(10, x))` — the parameter clamping of
`generate_3d_model` (model_generator.py, lines 65-66). -/
def clampParam (x : Int) : Int :=
  max 1 (min 10 x)

/-- Python truthiness of the optional integer `job_id`
(`if job_id else` treats both `None` and `0` as false). -/
def jobIdTruthy : Option Nat → Bool
  | none => false
  | some j => j != 0

/-- The output path `generate_3d_model` writes to: filename from the
job id when truthy, else from the (truncated) prompt (Python hashes the
prompt; the embedding keeps the prompt itself as the pure function of
it that names the file), placed under `generated/` when `os.makedirs`
succeeded and bare otherwise. -/
def outputPathOf (env : GenEnv) (prompt : String) (job_id : Option Nat) : String :=
  let output_filename :=
    if jobIdTruthy job_id then "model_" ++ toString (job_id.getD 0) ++ ".obj"
    else "model_" ++ prompt ++ ".obj"
  if env.makedirs_ok then "generated/" ++ output_filename else output_filename

/-- The mesh an external AI service returns on the `ai_enhanced` path
(opaque third-party geometry; one mesh, no tracked details). -/
def aiServiceMesh : Mesh :=
  { basePrims := 1, details := [] }

/-- The mesh of the basic keyword-dispatch path
(`generate_geometry_from_prompt` in model_generator.py): its
twelve-way keyword dispatch over canned primitive assemblies is not
itself under verification — no claim depends on its geometry — so its
output is embedded as one concatenated mesh; the function catches its
own errors and falls back to `create_default_mesh`, so it always
returns a mesh. -/
def basicPathMesh (_prompt : String) : Mesh :=
  { basePrims := 1, details := [] }

/-- `create_default_mesh()` (model_generator.py): the procedural
parametric sphere-like mesh built for "abstract geometric shape". -/
def create_default_mesh : Mesh :=
  { basePrims := 1, details := [] }

/-- The mesh-production phase of `generate_3d_model` (model_generator.py,
lines 102-163), given the validated engine string and the built config.
The AI path fires only for `engine == "ai_enhanced"` with services
available; otherwise, with the advanced modules imported, the advanced
generator runs (its internal errors are caught setting `mesh = None`,
with no further fallback — the `except` of lines 160-163 never sees
them); without the advanced modules the basic path always yields a mesh.
The advanced generator's returned mesh is embedded by its procedural
pipeline `_procedural_generation` (the hybrid/texture engines select
among procedurally generated candidates of the same pipeline). -/
def producedMesh (env : GenEnv) (engine : String) (prompt : String)
    (config : GenerationConfig) : Option Mesh :=
  if env.use_advanced then
    if (engine == "ai_enhanced") && env.ai_services_available && env.ai_success_and_mesh then
      some aiServiceMesh
    else if env.advanced_gen_ok then
      some (_procedural_generation env.geometry_generator_ok prompt config)
    else
      none
  else
    some (if env.basic_gen_raises then create_default_mesh else basicPathMesh prompt)

/-- `generate_3d_model` (model_generator.py, lines 41-265), returning
the path of the written model file together with the mesh written to it
(the embedding of the file's content), or the failure the caller sees.
The prompt is stripped and truncated to 500 characters, the numeric
parameters clamped into `[1, 10]`, and style/engine validated before
any generation step.  The output filename uses the job id when truthy
and a pure function of the (truncated) prompt otherwise (Python's
`hash(prompt)`; the embedding keeps the prompt itself as the
it-determines-the-name stand-in).  The export cascade tries the export
engine (when the advanced modules imported), direct OBJ export, then
STL. -/
def generate_3d_model (env : GenEnv) (prompt0 : String)
    (_reference_image_path : Option String) (job_id : Option Nat)
    (engine0 : String) (complexity0 detail_level0 : Int)
    (material_style0 : String) : Except GenFailure (String × Mesh) :=
  if pyStrip prompt0 = "" then .error .emptyPrompt
  else
    let prompt := pyTake 500 (pyStrip prompt0)
    let complexity := clampParam complexity0
    let detail_level := clampParam detail_level0
    let material_style :=
      if valid_styles.contains material_style0 then material_style0 else "realistic"
    let engine := validated_engine engine0
    let config : GenerationConfig :=
      { engine := (engineOfString engine).getD .hybrid
        complexity := complexity
        detail_level := detail_level
        material_style := material_style
        generate_textures := true
        generate_materials := true
        variations := 1
        seed := if jobIdTruthy job_id then some 0 else none }
    match producedMesh env engine prompt config with
    | none => .error .noGeometry
    | some mesh =>
      let output_path := outputPathOf env prompt job_id
      if env.use_advanced && env.engine_export_ok then .ok (output_path, mesh)
      else if env.direct_export_ok then .ok (output_path, mesh)
      else if env.stl_export_ok then
        .ok (String.replace output_path ".obj" ".stl", mesh)
      else .error .exportFailed

/-- `mesh is None` after the generation phase, as a condition on the
environment and validated engine. -/
def mesh_is_none (env : GenEnv) (engine : String) : Bool :=
  env.use_advanced &&
    !((engine == "ai_enhanced") && env.ai_services_available && env.ai_success_and_mesh) &&
    !env.advanced_gen_ok

/-- Some tier of the OBJ/STL export cascade succeeds. -/
def export_succeeds (env : GenEnv) : Bool :=
  (env.use_advanced && env.engine_export_ok) || env.direct_export_ok || env.stl_export_ok

/-! ## The Celery task (`tasks.py`, lines 14-120) and the job row
(`models.py`, lines 27-49) -/

/-- The `GenerationJob.status` column values (models.py, line 31). -/
inductive JobStatus
  | pending
  | processing
  | completed
  | failed
deriving DecidableEq

/-- The columns of a `GenerationJob` row the task touches.
`completed_at_set` embeds whether the `completed_at` timestamp column
was filled. -/
structure JobRow where
  status : JobStatus
  error_message : Option String
  obj_path : Option String
  fbx_path : Option String
  blend_path : Option String
  completed_at_set : Bool
deriving DecidableEq

/-- External outcomes of one `generate_3d_model_task` run:
whether the job row exists, whether the `AssetCache` lookup hit a
cached file that still exists, and the environments of the generation
and the two conversions. -/
structure TaskEnv where
  job_found : Bool
  cache_hit : Bool
  cached_path : String
  genEnv : GenEnv
  fbxEnv : ConvEnv
  blendEnv : ConvEnv

/-- What one task run did: the final job row, the sequence of values
written to `job.status`, the progress percentages reported to the task
state store, and whether the task re-raised to Celery. -/
structure TaskOutcome where
  job : JobRow
  status_writes : List JobStatus
  progress : List Nat
  raised : Bool
deriving DecidableEq

/-- The tail of the task shared by the cache-hit and fresh-generation
paths (tasks.py, lines 64-103): FBX conversion at 60%, Blend conversion
at 80%, then `status = 'completed'` with the completion timestamp and
100%. -/
def taskFinish (tenv : TaskEnv) (job_id : Nat) (job : JobRow)
    (writes : List JobStatus) (progress : List Nat) : TaskOutcome :=
  let obj := job.obj_path.getD ""
  let fbx := convert_to_fbx tenv.fbxEnv obj (toString job_id)
  let blend := convert_to_blend tenv.blendEnv obj (toString job_id)
  let job := { job with
    fbx_path := fbx.result
    blend_path := blend.result
    status := .completed
    completed_at_set := true }
  { job := job
    status_writes := writes ++ [.completed]
    progress := progress ++ [60, 80, 100]
    raised := false }

/-- `generate_3d_model_task` (tasks.py, lines 14-120).  The task marks
the job `processing` at 10%, consults the cache, otherwise calls
`generate_3d_model` at 20% (with the task defaults: engine `"hybrid"`,
complexity 7, detail level 8, material style `"realistic"`), converts
to FBX and Blend, and marks the job `completed`; any exception lands in
the handler, which sets `status = 'failed'`, persists the error message
on the row and re-raises.  A missing job row raises before any write
(and the handler's second lookup also finds nothing). -/
def generate_3d_model_task (tenv : TaskEnv) (job_id : Nat) (prompt : String)
    (reference_image_path : Option String) (job0 : JobRow) : TaskOutcome :=
  if !tenv.job_found then
    { job := job0, status_writes := [], progress := [], raised := true }
  else
    let job1 := { job0 with status := JobStatus.processing }
    if tenv.cache_hit then
      taskFinish tenv job_id { job1 with obj_path := some tenv.cached_path }
        [.processing] [10, 50]
    else
      match generate_3d_model tenv.genEnv prompt reference_image_path (some job_id)
          "hybrid" 7 8 "realistic" with
      | .error e =>
        { job := { job1 with status := .failed, error_message := some e.message }
          status_writes := [.processing, .failed]
          progress := [10, 20]
          raised := true }
      | .ok out =>
        taskFinish tenv job_id { job1 with obj_path := some out.1 }
          [.processing] [10, 20]

/-- Environment for witness runs: the advanced modules imported, the
AI service path is off, the advanced generator and the direct OBJ
export succeed, everything optional degrades. -/
def sampleGenEnv : GenEnv :=
  { use_advanced := true, ai_services_available := false, ai_success_and_mesh := false,
    geometry_generator_ok := false, advanced_gen_ok := true, basic_gen_raises := false,
    multimodal_ok := false, material_ok := false, texture_ok := false,
    makedirs_ok := true, engine_export_ok := false, direct_export_ok := true,
    stl_export_ok := false }

/-- Task environment for witness runs: the job row exists, the cache
misses, generation succeeds, both conversions fall through every tier. -/
def sampleTaskEnv : TaskEnv :=
  { job_found := true, cache_hit := false, cached_path := "",
    genEnv := sampleGenEnv, fbxEnv := allTiersFail, blendEnv := allTiersFail }

/-- A freshly created job row (models.py defaults). -/
def pendingRow : JobRow :=
  { status := .pending, error_message := none, obj_path := none,
    fbx_path := none, blend_path := none, completed_at_set := false }

/-! ## Lemmas on the first-match-wins detection loop -/

theorem detectFirst_mem (tbl : List (String × List String)) (dflt : String)
    (pl : List Char) :
    detectFirst tbl dflt pl ∈ dflt :: tbl.map Prod.fst := by
  induction tbl with
  | nil => simp [detectFirst]
  | cons e rest ih =>
    obtain ⟨cat, kws⟩ := e
    by_cases h : categoryMatches kws pl = true
    · simp [detectFirst, h]
    · simp only [detectFirst, h, if_false, List.map_cons]
      rcases List.mem_cons.mp ih with h1 | h1
      · exact List.mem_cons.mpr (Or.inl h1)
      · exact List.mem_cons.mpr (Or.inr (List.mem_cons.mpr (Or.inr h1)))

theorem detectFirst_default (tbl : List (String × List String)) (dflt : String)
    (pl : List Char) (h : ∀ e ∈ tbl, categoryMatches e.2 pl = false) :
    detectFirst tbl dflt pl = dflt := by
  induction tbl with
  | nil => rfl
  | cons e rest ih =>
    obtain ⟨cat, kws⟩ := e
    have h1 : categoryMatches kws pl = false := h (cat, kws) (by simp)
    simp only [detectFirst, h1, if_false]
    exact ih fun e he => h e (List.mem_cons.mpr (Or.inr he))

theorem detectFirst_hit (tbl : List (String × List String)) (dflt : String)
    (pl : List Char) :
    ∀ (i : Nat) (hi : i < tbl.length),
      ((tbl.take i).all fun e => !(categoryMatches e.2 pl)) = true →
      categoryMatches (tbl.get ⟨i, hi⟩).2 pl = true →
      detectFirst tbl dflt pl = (tbl.get ⟨i, hi⟩).1 := by
  induction tbl with
  | nil => intro i hi; simp at hi
  | cons e rest ih =>
    intro i hi hall hhit
    obtain ⟨cat, kws⟩ := e
    cases i with
    | zero =>
      simp only [List.get] at hhit
      simp [detectFirst, hhit]
    | succ j =>
      simp only [List.take_succ_cons, List.all_cons, Bool.and_eq_true,
        Bool.not_eq_true'] at hall
      obtain ⟨h0, hrest⟩ := hall
      simp only [List.get] at hhit ⊢
      simp only [detectFirst, h0, if_false]
      exact ih j (Nat.lt_of_succ_lt_succ hi) hrest hhit

/-- C3: on every prompt, `_analyze_prompt` returns exactly one
`shape_type` from {vehicle, building, furniture, character, weapon,
nature, abstract}; the winner is the first category, in the fixed
dictionary iteration order, one of whose keywords occurs as a substring
of the lowercased prompt; when no keyword of any category (shape,
style or size) matches, it returns `abstract` / `realistic` / `normal`;
it is a total function (never raises); "a glowing orb of light"
classifies as `abstract` and "red sports car" as `vehicle`. -/
theorem C3_classifier_first_match_wins :
    (∀ p : String, (_analyze_prompt p).shape_type ∈
      ["vehicle", "building", "furniture", "character", "weapon", "nature", "abstract"]) ∧
    (∀ (p : String) (i : Nat) (hi : i < shape_types.length),
      ((shape_types.take i).all fun e => !(categoryMatches e.2 (pyLower p))) = true →
      categoryMatches (shape_types.get ⟨i, hi⟩).2 (pyLower p) = true →
      (_analyze_prompt p).shape_type = (shape_types.get ⟨i, hi⟩).1) ∧
    (∀ p : String,
      (shape_types.all fun e => !(categoryMatches e.2 (pyLower p))) = true →
      (styles.all fun e => !(categoryMatches e.2 (pyLower p))) = true →
      (size_keywords.all fun e => !(categoryMatches e.2 (pyLower p))) = true →
      (_analyze_prompt p).shape_type = "abstract" ∧
        (_analyze_prompt p).style = "realistic" ∧
        (_analyze_prompt p).size = "normal") ∧
    (_analyze_prompt "a glowing orb of light").shape_type = "abstract" ∧
    (_analyze_prompt "a glowing orb of light").style = "realistic" ∧
    (_analyze_prompt "a glowing orb of light").size = "normal" ∧
    (_analyze_prompt "red sports car").shape_type = "vehicle" := by
  refine ⟨?_, ?_, ?_, by decide, by decide, by decide, by decide⟩
  · intro p
    have hm := detectFirst_mem shape_types "abstract" (pyLower p)
    have hst : (_analyze_prompt p).shape_type =
        detectFirst shape_types "abstract" (pyLower p) := rfl
    rw [hst]
    simp only [shape_types, List.map_cons, List.map_nil, List.mem_cons,
      List.not_mem_nil, or_false] at hm ⊢
    tauto
  · intro p i hi hall hhit
    exact detectFirst_hit shape_types "abstract" (pyLower p) i hi hall hhit
  · intro p hshape hstyle hsize
    simp only [List.all_eq_true, Bool.not_eq_true'] at hshape hstyle hsize
    exact ⟨detectFirst_default _ _ _ hshape, detectFirst_default _ _ _ hstyle,
      detectFirst_default _ _ _ hsize⟩

/-- Witness for C3: on the concrete prompt "castle", the first shape
category (vehicle, index 0) has no keyword in the prompt while the
second (building, index 1) does, so the classifier returns
"building". -/
theorem C3_witness : (_analyze_prompt "castle").shape_type = "building" :=
  C3_classifier_first_match_wins.2.1 "castle" 1 (by decide) (by decide) (by decide)

/-- C7: on every prompt, the complexity estimate of the classifier is
`5 + (number of detail words present) - (number of simplicity words
present)` clamped into `[1, 10]`, and in particular always lies in
`[1, 10]`. -/
theorem C7_complexity_estimate (p : String) :
    (_analyze_prompt p).complexity =
      (if 5 + countPresent detail_words (pyLower p) - countPresent simple_words (pyLower p) < 1
       then 1
       else if 10 < 5 + countPresent detail_words (pyLower p) - countPresent simple_words (pyLower p)
       then 10
       else 5 + countPresent detail_words (pyLower p) - countPresent simple_words (pyLower p)) ∧
    1 ≤ (_analyze_prompt p).complexity ∧ (_analyze_prompt p).complexity ≤ 10 := by
  have hc : (_analyze_prompt p).complexity =
      max 1 (min 10 (5 + countPresent detail_words (pyLower p) -
        countPresent simple_words (pyLower p))) := rfl
  rw [hc]
  generalize countPresent detail_words (pyLower p) = dd
  generalize countPresent simple_words (pyLower p) = ss
  refine ⟨?_, ?_, ?_⟩ <;> (try split_ifs) <;> omega

/-- C2 counterexample: run the procedural pipeline (geometry generator
failing over to the traditional path) on prompt "a car" with a config
of complexity 9 — at or above every documented threshold.  The claim
predicts appended spheres (and panels and cylinders); the produced mesh
has no appended detail primitives at all, because
`_generate_base_shape` first caps the shared config's complexity at 5. -/
theorem C2_counterexample :
    (_procedural_generation false "a car"
      { engine := .procedural, complexity := 9, detail_level := 8 }).details = [] := by
  decide

/-- C2 as amended: `_add_details`, taken on its own, appends 20 small
spheres at sampled surface points when its config's complexity is at
least 7, additionally 5 panel boxes at complexity at least 8 when the
shape type is vehicle/building/robot, and additionally 10 small
cylinders at complexity at least 9; below 7 it appends nothing.  But in
the procedural generation pipeline `_generate_base_shape` mutates the
shared config, capping complexity at 5, before `_add_details` runs, so
the pipeline never appends any detail primitive, for every prompt,
every starting config and either geometry-generator outcome. -/
theorem C2_add_details_thresholds :
    (∀ (m : Mesh) (info : ShapeInfo) (cfg : GenerationConfig),
      7 ≤ cfg.complexity → cfg.complexity < 8 →
      (_add_details m info cfg).details = m.details ++ List.replicate 20 DetailPrim.bump) ∧
    (∀ (m : Mesh) (info : ShapeInfo) (cfg : GenerationConfig),
      cfg.complexity < 7 →
      (_add_details m info cfg).details = m.details) ∧
    (∀ (m : Mesh) (info : ShapeInfo) (cfg : GenerationConfig),
      9 ≤ cfg.complexity →
      (info.shape_type = "vehicle" ∨ info.shape_type = "building" ∨
        info.shape_type = "robot") →
      (_add_details m info cfg).details = m.details ++ List.replicate 20 DetailPrim.bump
        ++ List.replicate 5 DetailPrim.panel ++ List.replicate 10 DetailPrim.pin) ∧
    (∀ (g : Bool) (p : String) (cfg : GenerationConfig),
      (_procedural_generation g p cfg).details = []) := by
  refine ⟨?_, ?_, ?_, ?_⟩
  · intro m info cfg h7 h8
    unfold _add_details _add_surface_details _add_structural_details _add_fine_details
    split_ifs <;> first | rfl | omega
  · intro m info cfg h7
    unfold _add_details _add_surface_details _add_structural_details _add_fine_details
    split_ifs <;> first | rfl | omega
  · intro m info cfg h9 hst
    unfold _add_details _add_surface_details _add_structural_details _add_fine_details
    split_ifs <;> first | rfl | omega
  · intro g p cfg
    unfold _procedural_generation _generate_base_shape _apply_transformations
    split_ifs with hg
    · rfl
    · have h5 : min cfg.complexity 5 ≤ 5 := min_le_right _ _
      unfold _add_details _add_surface_details _add_structural_details _add_fine_details
      dsimp only
      split_ifs <;> first | rfl | omega

/-- Witness for C2 (amended): `_add_details` in isolation, at
complexity exactly 7, on an empty-detail vehicle base mesh, appends
exactly the 20 small spheres. -/
theorem C2_witness :
    (_add_details { basePrims := 6, details := [] } (_analyze_prompt "a car")
      { engine := .procedural, complexity := 7 }).details =
      List.replicate 20 DetailPrim.bump := by
  have h := C2_add_details_thresholds.1 { basePrims := 6, details := [] }
    (_analyze_prompt "a car") { engine := .procedural, complexity := 7 }
    (by decide) (by decide)
  simpa using h

/-- C1 counterexample: with Blender absent and every fallback tier
failing, `convert_to_blend` returns `None` — the caller receives no
file path, contrary to the claim that some file path is always
returned. -/
theorem C1_counterexample :
    (convert_to_blend allTiersFail "model.obj" "7").result = none := by
  decide

/-- C1 as amended: `convert_to_blend` never raises to its caller, and
returns a file path exactly when the Blender tier or the export-engine
tier succeeds; when both fail it returns `None` (not a path).  Its
sibling `convert_to_fbx` does always return some file path. -/
theorem C1_blend_returns_path_iff_tier_succeeds (env : ConvEnv)
    (obj_path job_id : String) :
    (convert_to_blend env obj_path job_id).result.isSome =
      ((env.blender_found && env.blender_run_ok) ||
        (env.engine_available && env.trimesh_load_ok && env.engine_export_ok)) ∧
    (convert_to_fbx env obj_path job_id).result.isSome = true := by
  obtain ⟨b1, b2, b3, b4, b5, b6, b7⟩ := env
  cases b1 <;> cases b2 <;> cases b3 <;> cases b4 <;> cases b5 <;> cases b6 <;>
    cases b7 <;> exact ⟨rfl, rfl⟩

/-- C4: when the Blender executable cannot be found and the trimesh
native FBX tier and the export-engine tier also fail, `convert_to_fbx`
returns the original `.obj` path unchanged, writes no file (so the
input's content is untouched), and raises nothing. -/
theorem C4_fbx_degrades_to_original (env : ConvEnv) (obj_path job_id : String)
    (h1 : env.blender_found = false)
    (h2 : (env.trimesh_load_ok && env.fbx_exporter_available && env.trimesh_export_ok) = false)
    (h3 : (env.engine_available && env.trimesh_load_ok && env.engine_export_ok) = false) :
    (convert_to_fbx env obj_path job_id).result = some obj_path ∧
    (convert_to_fbx env obj_path job_id).writes = [] := by
  unfold convert_to_fbx
  simp [h1, h2, h3]

/-- Witness for C4 at the all-tiers-fail environment. -/
theorem C4_witness :
    (convert_to_fbx allTiersFail "model.obj" "7").result = some "model.obj" ∧
    (convert_to_fbx allTiersFail "model.obj" "7").writes = [] :=
  C4_fbx_degrades_to_original allTiersFail "model.obj" "7" rfl rfl rfl

/-- C5 counterexample: for the blend target the claimed four-tier chain
does not exist — with every tier failing, `convert_to_blend` attempts
only Blender CLI, the export engine and the final `return None`
(no native-exporter tier), and its final fallback is `None`, not the
original OBJ path. -/
theorem C5_counterexample :
    (convert_to_blend allTiersFail "model.obj" "1").tiers ≠
      [Tier.blenderCLI, Tier.nativeExporter, Tier.exportEngine, Tier.returnOriginal] ∧
    (convert_to_blend allTiersFail "model.obj" "1").result ≠ some "model.obj" := by
  decide

/-- C5 as amended: each conversion function is exactly an ordered
strategy chain evaluated first-match-wins with no retries —
`convert_to_fbx` the four-tier chain Blender CLI → native FBX exporter
→ export engine → return the original OBJ unchanged, but
`convert_to_blend` the three-tier chain Blender CLI → export engine →
return `None`. -/
theorem C5_tier_chains (env : ConvEnv) (obj_path job_id : String) :
    convert_to_fbx env obj_path job_id = runChain (fbxChain obj_path job_id) env ∧
    convert_to_blend env obj_path job_id = runChain (blendChain obj_path job_id) env ∧
    (fbxChain obj_path job_id).map Strategy.tier =
      [Tier.blenderCLI, Tier.nativeExporter, Tier.exportEngine, Tier.returnOriginal] ∧
    (blendChain obj_path job_id).map Strategy.tier =
      [Tier.blenderCLI, Tier.exportEngine, Tier.returnNone] := by
  obtain ⟨b1, b2, b3, b4, b5, b6, b7⟩ := env
  refine ⟨?_, ?_, rfl, rfl⟩ <;>
    cases b1 <;> cases b2 <;> cases b3 <;> cases b4 <;> cases b5 <;> cases b6 <;>
      cases b7 <;> rfl

theorem producedMesh_eq_none (env : GenEnv) (engine prompt : String)
    (config : GenerationConfig) :
    producedMesh env engine prompt config = none ↔ mesh_is_none env engine = true := by
  unfold producedMesh mesh_is_none
  cases hu : env.use_advanced <;>
    cases hai : (engine == "ai_enhanced") && env.ai_services_available &&
      env.ai_success_and_mesh <;>
    cases hadv : env.advanced_gen_ok <;> simp [hu, hai, hadv]

theorem generate_3d_model_trichotomy (env : GenEnv) (p : String)
    (ref : Option String) (jid : Option Nat) (e : String) (c d : Int) (ms : String)
    (hp : pyStrip p ≠ "") :
    (mesh_is_none env (validated_engine e) = true ∧
      generate_3d_model env p ref jid e c d ms = .error .noGeometry) ∨
    (mesh_is_none env (validated_engine e) = false ∧ export_succeeds env = true ∧
      ∃ out, generate_3d_model env p ref jid e c d ms = .ok out) ∨
    (mesh_is_none env (validated_engine e) = false ∧ export_succeeds env = false ∧
      generate_3d_model env p ref jid e c d ms = .error .exportFailed) := by
  have hmesh := producedMesh_eq_none env (validated_engine e) (pyTake 500 (pyStrip p))
  simp only [generate_3d_model, if_neg hp]
  split
  · next heq => exact Or.inl ⟨(hmesh _).mp heq, rfl⟩
  · next m heq =>
    have hmn : mesh_is_none env (validated_engine e) = false := by
      cases hmn : mesh_is_none env (validated_engine e)
      · rfl
      · rw [(hmesh _).mpr hmn] at heq; exact Option.noConfusion heq
    split_ifs with hx1 hx2 hx3
    · exact Or.inr (Or.inl ⟨hmn, by simp [export_succeeds, hx1], _, rfl⟩)
    · exact Or.inr (Or.inl ⟨hmn, by simp [export_succeeds, hx2], _, rfl⟩)
    · exact Or.inr (Or.inl ⟨hmn, by simp [export_succeeds, hx3], _, rfl⟩)
    · refine Or.inr (Or.inr ⟨hmn, ?_, rfl⟩)
      have e1 : (env.use_advanced && env.engine_export_ok) = false := by
        cases h : env.use_advanced && env.engine_export_ok
        · rfl
        · exact absurd h hx1
      have e2 : env.direct_export_ok = false := by
        cases h : env.direct_export_ok
        · rfl
        · exact absurd h hx2
      have e3 : env.stl_export_ok = false := by
        cases h : env.stl_export_ok
        · rfl
        · exact absurd h hx3
      simp [export_succeeds, e1, e2, e3]

/-- C6: `generate_3d_model` fails to its caller in exactly three
cases — a `ValueError` on an empty (all-whitespace) prompt, the
"Failed to generate 3D geometry" exception when no mesh at all was
produced, and the export exception when every export tier fails; in
every remaining case it returns a file path, and the silently degrading
steps (multimodal processing, material and texture generation) never
change the outcome. -/
theorem C6_hard_failures (env : GenEnv) (p : String) (ref : Option String)
    (jid : Option Nat) (e : String) (c d : Int) (ms : String) :
    (generate_3d_model env p ref jid e c d ms = .error .emptyPrompt ↔
      pyStrip p = "") ∧
    (generate_3d_model env p ref jid e c d ms = .error .noGeometry ↔
      (pyStrip p ≠ "" ∧ mesh_is_none env (validated_engine e) = true)) ∧
    (generate_3d_model env p ref jid e c d ms = .error .exportFailed ↔
      (pyStrip p ≠ "" ∧ mesh_is_none env (validated_engine e) = false ∧
        export_succeeds env = false)) ∧
    ((∃ out, generate_3d_model env p ref jid e c d ms = .ok out) ↔
      (pyStrip p ≠ "" ∧ mesh_is_none env (validated_engine e) = false ∧
        export_succeeds env = true)) ∧
    (∀ b1 b2 b3 : Bool,
      generate_3d_model
        { env with multimodal_ok := b1, material_ok := b2, texture_ok := b3 }
        p ref jid e c d ms = generate_3d_model env p ref jid e c d ms) := by
  by_cases hp : pyStrip p = ""
  · refine ⟨by simp [generate_3d_model, hp], by simp [generate_3d_model, hp],
      by simp [generate_3d_model, hp], by simp [generate_3d_model, hp],
      fun b1 b2 b3 => by cases env; rfl⟩
  · have htri := generate_3d_model_trichotomy env p ref jid e c d ms hp
    refine ⟨?_, ?_, ?_, ?_, fun b1 b2 b3 => by cases env; rfl⟩
    · constructor
      · intro h
        rcases htri with ⟨-, hr⟩ | ⟨-, -, out, hr⟩ | ⟨-, -, hr⟩ <;>
          rw [h] at hr <;> simp at hr
      · intro h; exact absurd h hp
    · constructor
      · intro h
        rcases htri with ⟨hmn, hr⟩ | ⟨-, -, out, hr⟩ | ⟨-, -, hr⟩
        · exact ⟨hp, hmn⟩
        · rw [h] at hr; simp at hr
        · rw [h] at hr; simp at hr
      · rintro ⟨-, hmn⟩
        rcases htri with ⟨-, hr⟩ | ⟨hmn2, -, -, -⟩ | ⟨hmn2, -, -⟩
        · exact hr
        · rw [hmn] at hmn2; exact Bool.noConfusion hmn2
        · rw [hmn] at hmn2; exact Bool.noConfusion hmn2
    · constructor
      · intro h
        rcases htri with ⟨-, hr⟩ | ⟨-, -, out, hr⟩ | ⟨hmn, hex, hr⟩
        · rw [h] at hr; simp at hr
        · rw [h] at hr; simp at hr
        · exact ⟨hp, hmn, hex⟩
      · rintro ⟨-, hmn, hex⟩
        rcases htri with ⟨hmn2, -⟩ | ⟨-, hex2, -, -⟩ | ⟨-, -, hr⟩
        · rw [hmn] at hmn2; exact Bool.noConfusion hmn2
        · rw [hex] at hex2; exact Bool.noConfusion hex2
        · exact hr
    · constructor
      · rintro ⟨out, h⟩
        rcases htri with ⟨-, hr⟩ | ⟨hmn, hex, -⟩ | ⟨-, -, hr⟩
        · rw [h] at hr; simp at hr
        · exact ⟨hp, hmn, hex⟩
        · rw [h] at hr; simp at hr
      · rintro ⟨-, hmn, hex⟩
        rcases htri with ⟨hmn2, -⟩ | ⟨-, -, out, hr⟩ | ⟨-, hex2, -⟩
        · rw [hmn] at hmn2; exact Bool.noConfusion hmn2
        · exact ⟨out, hr⟩
        · rw [hex] at hex2; exact Bool.noConfusion hex2

/-- C8: `generate_3d_model` clamps its `complexity` and `detail_level`
arguments into `[1, 10]` via `max(1, min(10, x))` before any generation
step: the clamp always lands in `[1, 10]`, out-of-range inputs such as
15 and -3 clamp to 10 and 1, and calling the function on any arguments
is indistinguishable from calling it on the pre-clamped values. -/
theorem C8_parameter_clamping (env : GenEnv) (p : String) (ref : Option String)
    (jid : Option Nat) (e : String) (c d : Int) (ms : String) :
    generate_3d_model env p ref jid e c d ms =
      generate_3d_model env p ref jid e (clampParam c) (clampParam d) ms ∧
    (1 ≤ clampParam c ∧ clampParam c ≤ 10) ∧
    clampParam 15 = 10 ∧ clampParam (-3) = 1 := by
  have hidem : ∀ x : Int, clampParam (clampParam x) = clampParam x := by
    intro x; unfold clampParam; omega
  refine ⟨?_, ⟨?_, ?_⟩, by decide, by decide⟩
  · unfold generate_3d_model
    rw [hidem c, hidem d]
  · unfold clampParam; omega
  · unfold clampParam; omega

/-- C10 (implicit behavior): `generate_3d_model` strips the prompt and
silently truncates it to its first 500 characters before any
classification or generation step, so any two non-empty prompts that
agree on the first 500 characters of their stripped forms are processed
identically: same result, same output path, same generated mesh. -/
theorem C10_prompt_truncation (env : GenEnv) (p1 p2 : String) (ref : Option String)
    (jid : Option Nat) (e : String) (c d : Int) (ms : String)
    (h1 : pyStrip p1 ≠ "") (h2 : pyStrip p2 ≠ "")
    (h : pyTake 500 (pyStrip p1) = pyTake 500 (pyStrip p2)) :
    generate_3d_model env p1 ref jid e c d ms =
      generate_3d_model env p2 ref jid e c d ms := by
  unfold generate_3d_model
  rw [if_neg h1, if_neg h2, h]

/-- Witness for C10: "a car" and "  a car" agree after stripping, so
the run is identical. -/
theorem C10_witness :
    generate_3d_model sampleGenEnv "a car" none (some 1) "hybrid" 7 8 "realistic" =
      generate_3d_model sampleGenEnv "  a car" none (some 1) "hybrid" 7 8 "realistic" :=
  C10_prompt_truncation sampleGenEnv "a car" "  a car" none (some 1) "hybrid" 7 8
    "realistic" (by decide) (by decide) (by decide)

/-- C9: every job row the async task processes follows the lifecycle
pending → processing → (completed | failed): with the row present, the
task writes `processing` first and then exactly one terminal status —
`completed` together with the completion timestamp when the run
succeeds, or `failed` together with a persisted error message when
anything raises — and never writes any other status value. -/
theorem C9_job_lifecycle (tenv : TaskEnv) (job_id : Nat) (prompt : String)
    (ref : Option String) (job0 : JobRow) (hfound : tenv.job_found = true) :
    ((generate_3d_model_task tenv job_id prompt ref job0).status_writes =
        [JobStatus.processing, JobStatus.completed] ∧
      (generate_3d_model_task tenv job_id prompt ref job0).job.status = .completed ∧
      (generate_3d_model_task tenv job_id prompt ref job0).job.completed_at_set = true ∧
      (generate_3d_model_task tenv job_id prompt ref job0).raised = false) ∨
    ((generate_3d_model_task tenv job_id prompt ref job0).status_writes =
        [JobStatus.processing, JobStatus.failed] ∧
      (generate_3d_model_task tenv job_id prompt ref job0).job.status = .failed ∧
      (generate_3d_model_task tenv job_id prompt ref job0).job.error_message.isSome
        = true ∧
      (generate_3d_model_task tenv job_id prompt ref job0).raised = true) := by
  unfold generate_3d_model_task
  rw [hfound]
  by_cases hc : tenv.cache_hit
  · left
    simp [hc, taskFinish]
  · rcases hg : generate_3d_model tenv.genEnv prompt ref (some job_id)
        "hybrid" 7 8 "realistic" with f | out
    · right
      simp [hc, hg]
    · left
      simp [hc, hg, taskFinish]

/-- Witness for C9 at a concrete environment in which the job exists,
the cache misses, generation succeeds and both conversions degrade. -/
theorem C9_witness :
    ((generate_3d_model_task sampleTaskEnv 1 "a car" none pendingRow).status_writes =
        [JobStatus.processing, JobStatus.completed] ∧
      (generate_3d_model_task sampleTaskEnv 1 "a car" none pendingRow).job.status =
        .completed ∧
      (generate_3d_model_task sampleTaskEnv 1 "a car" none
        pendingRow).job.completed_at_set = true ∧
      (generate_3d_model_task sampleTaskEnv 1 "a car" none pendingRow).raised
        = false) ∨
    ((generate_3d_model_task sampleTaskEnv 1 "a car" none pendingRow).status_writes =
        [JobStatus.processing, JobStatus.failed] ∧
      (generate_3d_model_task sampleTaskEnv 1 "a car" none pendingRow).job.status =
        .failed ∧
      (generate_3d_model_task sampleTaskEnv 1 "a car" none
        pendingRow).job.error_message.isSome = true ∧
      (generate_3d_model_task sampleTaskEnv 1 "a car" none pendingRow).raised
        = true) :=
  C9_job_lifecycle sampleTaskEnv 1 "a car" none pendingRow rfl

end ModelForge
